import Mathlib

/-!
Shallow embedding of the OP_RETURN transaction builder (`src/main.py`,
class `OPReturnTransactionBuilder`): the data-carrier script encoder
`_create_op_return_script`, the unsigned-transaction builder
`create_transaction`, and the PSBT-based `sign_transaction`.

Bytes are modelled as `Nat` (values 0..255 produced by the code),
satoshi amounts as `Int` (Python integers), and the fee rate as `ℚ`
(the Python code stores it as a fractional `float`; the arithmetic
`int(fee_rate * estimated_vsize)` is embedded as exact rational
arithmetic with Python's truncation-toward-zero conversion `pyInt`).

The cryptographic primitives from the external `embit` library
(`script.p2wpkh`, `PSBT.sign_with`, `finalize_psbt`) are not part of
this repository; they enter the embedding as explicit function
parameters, while everything the repository's own code does around
them is embedded faithfully.
-/

namespace BitcoinOps

/-- A Bitcoin script, as the byte string `embit.script.Script` wraps. -/
structure Script where
  bytes : List Nat
deriving DecidableEq, Repr

/-- `embit.transaction.TransactionInput`: outpoint plus (empty) scriptSig
and witness, as constructed by `TransactionInput(bytes.fromhex(txid), vout)`. -/
structure TransactionInput where
  txid : List Nat
  vout : Nat
  script_sig : List Nat
  witness : List (List Nat)
deriving DecidableEq, Repr

/-- `embit.transaction.TransactionOutput`: value in satoshis and scriptPubKey. -/
structure TransactionOutput where
  value : Int
  script_pubkey : Script
deriving DecidableEq, Repr

/-- `embit.transaction.Transaction` as used by `create_transaction`. -/
structure Transaction where
  version : Nat
  locktime : Nat
  vin : List TransactionInput
  vout : List TransactionOutput
deriving DecidableEq, Repr

/-- Error kinds of the builder.  `PayloadTooLarge` is the
`ValueError("OP_RETURN data too large: ...")` raised by
`_create_op_return_script`; `InvalidTxidHex` is the `ValueError` that
`bytes.fromhex` raises on a malformed txid string. -/
inductive BuildError where
  | PayloadTooLarge : BuildError
  | InvalidTxidHex : BuildError
deriving DecidableEq, Repr

/-- Error kinds of the signer.  `FinalizationFailed` is the
`RuntimeError("Failed to finalize PSBT - transaction may be missing
signatures")` raised when `finalize_psbt` returns `None`;
`ValueMismatch` is the error kind the specification's taxonomy names
for a previous-output value disagreement. -/
inductive SignError where
  | FinalizationFailed : SignError
  | ValueMismatch : SignError
deriving DecidableEq, Repr

/-- Value of a single hex digit, as in Python's `bytes.fromhex`. -/
def hexVal (c : Char) : Option Nat :=
  if '0' ≤ c ∧ c ≤ '9' then some (c.toNat - '0'.toNat)
  else if 'a' ≤ c ∧ c ≤ 'f' then some (c.toNat - 'a'.toNat + 10)
  else if 'A' ≤ c ∧ c ≤ 'F' then some (c.toNat - 'A'.toNat + 10)
  else none

/-- `bytes.fromhex` on a list of characters: consecutive pairs of hex
digits (whitespace handling of the Python builtin is not modelled; no
caller in `main.py` passes whitespace). `none` models the `ValueError`
on odd length or a non-hex character. -/
def bytesFromHexList : List Char → Option (List Nat)
  | [] => some []
  | [_] => none
  | c1 :: c2 :: rest =>
    match hexVal c1, hexVal c2, bytesFromHexList rest with
    | some h, some l, some tail => some ((16 * h + l) :: tail)
    | _, _, _ => none

/-- Python `bytes.fromhex` applied to a txid string. -/
def bytesFromHex (s : String) : Option (List Nat) :=
  bytesFromHexList s.data

/-- Python `len(data).to_bytes(2, byteorder="little")` for `n < 65536`. -/
def toBytesLE2 (n : Nat) : List Nat :=
  [n % 256, n / 256 % 256]

/-- Python `int()` applied to an exact numeric value: truncation toward
zero (floor for nonnegative values, ceiling for negative ones). -/
def pyInt (q : ℚ) : Int :=
  if 0 ≤ q then ⌊q⌋ else ⌈q⌉

/-- `OPReturnTransactionBuilder._create_op_return_script` (src/main.py
lines 346-365): OP_RETURN (0x6a) followed by the minimal push encoding
of `data`, or `PayloadTooLarge` past 65535 bytes. -/
def create_op_return_script (data : List Nat) : Except BuildError Script :=
  if data.length ≤ 75 then
    .ok ⟨0x6a :: data.length :: data⟩
  else if data.length ≤ 255 then
    .ok ⟨0x6a :: 0x4c :: data.length :: data⟩
  else if data.length ≤ 65535 then
    .ok ⟨[0x6a, 0x4d] ++ toBytesLE2 data.length ++ data⟩
  else
    .error .PayloadTooLarge

/-- The OP_RETURN output loop of `create_transaction` (src/main.py lines
386-394): one zero-value output per payload, in payload order; the first
encoding failure aborts the whole build. -/
def make_data_outputs : List (List Nat) → Except BuildError (List TransactionOutput)
  | [] => .ok []
  | d :: rest =>
    match create_op_return_script d with
    | .error e => .error e
    | .ok s =>
      match make_data_outputs rest with
      | .error e => .error e
      | .ok outs => .ok (⟨0, s⟩ :: outs)

/-- The fixed linear virtual-size model of `create_transaction`
(src/main.py line 400): `10 + 68 + Σ(10 + len(payload_i)) + 31`. -/
def estimated_vsize (payloads : List (List Nat)) : Nat :=
  10 + 68 + (payloads.map (fun d => 10 + d.length)).sum + 31

/-- The fee computation of `create_transaction` (src/main.py lines
402-406): `fee = int(fee_rate * estimated_vsize)`, then a floor of 1. -/
def computed_fee (fee_rate : ℚ) (payloads : List (List Nat)) : Int :=
  if pyInt (fee_rate * (estimated_vsize payloads : ℚ)) < 1 then 1
  else pyInt (fee_rate * (estimated_vsize payloads : ℚ))

/-- The fee the builder reports as actually paid: when the change
`utxo_amount - fee` falls below the 546-satoshi dust limit the change
output is dropped and the code reports "Total fee will be
`utxo_amount` sats instead of `fee` sats" (src/main.py lines 411-416). -/
def effective_fee (fee_rate : ℚ) (utxo_amount : Int)
    (payloads : List (List Nat)) : Int :=
  if utxo_amount - computed_fee fee_rate payloads < 546 then utxo_amount
  else computed_fee fee_rate payloads

/-- `OPReturnTransactionBuilder.create_transaction` (src/main.py lines
367-425).  `p2wpkh` is `embit.script.p2wpkh` (external library),
`pub_key` is `self.wallet.pub_key`, `fee_rate` is `self.fee_rate`.
The `prev_tx` argument is accepted, as in the source, and never used. -/
def create_transaction (p2wpkh : List Nat → Script) (pub_key : List Nat)
    (fee_rate : ℚ) (utxo_txid : String) (utxo_vout : Nat) (utxo_amount : Int)
    (op_return_data_list : List (List Nat)) (prev_tx : Transaction) :
    Except BuildError Transaction :=
  match bytesFromHex utxo_txid with
  | none => .error .InvalidTxidHex
  | some txid_bytes =>
    match make_data_outputs op_return_data_list with
    | .error e => .error e
    | .ok data_outputs =>
      if utxo_amount - computed_fee fee_rate op_return_data_list < 546 then
        .ok ⟨2, 0, [⟨txid_bytes, utxo_vout, [], []⟩], data_outputs⟩
      else
        .ok ⟨2, 0, [⟨txid_bytes, utxo_vout, [], []⟩],
          data_outputs ++
            [⟨utxo_amount - computed_fee fee_rate op_return_data_list,
              p2wpkh pub_key⟩]⟩

/-- Sum of the output values of a transaction. -/
def output_value_sum (tx : Transaction) : Int :=
  (tx.vout.map TransactionOutput.value).sum

/-- A private key as `embit.ec.PrivateKey` (32 bytes). -/
abbrev PrivKey := List Nat

/-- The slice of `embit.psbt.PSBT` state that `sign_transaction`
manipulates: the wrapped transaction and each input's `witness_utxo`. -/
structure PSBT where
  tx : Transaction
  input_witness_utxos : List (Option TransactionOutput)
deriving DecidableEq

/-- `PSBT(tx)`: one input record per transaction input, no witness UTXO yet. -/
def PSBT.ofTx (t : Transaction) : PSBT :=
  ⟨t, t.vin.map (fun _ => none)⟩

/-- The PSBT as prepared by `sign_transaction` before signing:
`psbt = PSBT(tx); psbt.inputs[0].witness_utxo = prev_output`
(src/main.py lines 437-440; every transaction this program signs has
exactly one input). -/
def psbt_for_signing (tx : Transaction) (prev_output : TransactionOutput) : PSBT :=
  ⟨(PSBT.ofTx tx).tx,
    (PSBT.ofTx tx).input_witness_utxos.set 0 (some prev_output)⟩

/-- `OPReturnTransactionBuilder.sign_transaction` (src/main.py lines
427-454).  `sign_with` is `embit`'s `PSBT.sign_with` and
`finalize_psbt` is `embit.finalizer.finalize_psbt`, both external
library code and hence parameters of the embedding; `finalize_psbt`
returning `none` models its Python `None` result, on which the source
raises instead of returning a transaction.  The `utxo_txid` and
`utxo_vout` arguments are accepted, as in the source, and never used. -/
def sign_transaction
    (sign_with : PSBT → PrivKey → PSBT)
    (finalize_psbt : PSBT → Option Transaction)
    (priv_key : PrivKey)
    (tx : Transaction) (utxo_txid : String) (utxo_vout : Nat)
    (prev_output : TransactionOutput) : Except SignError Transaction :=
  match finalize_psbt (sign_with (psbt_for_signing tx prev_output) priv_key) with
  | none => .error .FinalizationFailed
  | some final_tx => .ok final_tx

/-! Concrete data for the end-to-end scenarios of the specification:
one 13-byte payload, fee rate 2 sat/vB. -/

/-- A 13-byte payload (thirteen `A` characters). -/
def payload13 : List Nat := List.replicate 13 65

/-- A placeholder previous transaction (never read by the builder). -/
def empty_tx : Transaction := ⟨2, 0, [], []⟩

/-- A concrete stand-in for the external `script.p2wpkh`: its exact
byte layout is irrelevant to the builder, which only stores the script
it returns. -/
def a_p2wpkh (pk : List Nat) : Script := ⟨[0x00, 0x14] ++ pk⟩

/-- The build of the specification's funded scenario: input value
100000 sats, one 13-byte payload, fee rate 2 sat/vB. -/
def scenario_build : Except BuildError Transaction :=
  create_transaction a_p2wpkh [1] 2 "ab" 0 100000 [payload13] empty_tx

/-- The transaction that `scenario_build` produces: fee 264,
change 99736 ≥ 546, so data output then change output. -/
def scenario_tx : Transaction :=
  ⟨2, 0, [⟨[0xab], 0, [], []⟩],
    [⟨0, ⟨0x6a :: 13 :: payload13⟩⟩, ⟨99736, a_p2wpkh [1]⟩]⟩

/-- The build of the specification's dust scenario: input value 600
sats, same payload and fee rate. -/
def dust_build : Except BuildError Transaction :=
  create_transaction a_p2wpkh [1] 2 "ab" 0 600 [payload13] empty_tx

/-- The transaction that `dust_build` produces: change 336 < 546, so
the data output alone. -/
def dust_tx : Transaction :=
  ⟨2, 0, [⟨[0xab], 0, [], []⟩], [⟨0, ⟨0x6a :: 13 :: payload13⟩⟩]⟩

/-! ## Helper lemmas -/

/-- Inversion for `make_data_outputs`: length, zero values and
per-index scripts of a successful encoding run. -/
theorem make_data_outputs_inv (ps : List (List Nat))
    (outs : List TransactionOutput) (h : make_data_outputs ps = .ok outs) :
    outs.length = ps.length ∧ (∀ o ∈ outs, o.value = 0) ∧
    ∀ i, i < ps.length →
      ∃ s, create_op_return_script (ps.getD i []) = .ok s ∧
        outs.getD i ⟨0, ⟨[]⟩⟩ = ⟨0, s⟩ := by
  induction ps generalizing outs with
  | nil =>
    unfold make_data_outputs at h
    cases h
    exact ⟨rfl, by simp, by intro i hi; simp at hi⟩
  | cons d rest ih =>
    unfold make_data_outputs at h
    cases hs : create_op_return_script d with
    | error e => rw [hs] at h; cases h
    | ok s =>
      rw [hs] at h
      cases ho : make_data_outputs rest with
      | error e => rw [ho] at h; cases h
      | ok outs' =>
        rw [ho] at h
        cases h
        obtain ⟨hlen, hzero, hget⟩ := ih outs' ho
        refine ⟨by simp [hlen], ?_, ?_⟩
        · intro o ho'
          rcases List.mem_cons.mp ho' with rfl | hmem
          · rfl
          · exact hzero o hmem
        · intro i hi
          cases i with
          | zero => exact ⟨s, hs, rfl⟩
          | succ j =>
            obtain ⟨s', hs', hout⟩ := hget j (by simpa using hi)
            exact ⟨s', by simpa using hs', by simpa using hout⟩

/-- The sum of the values of the data outputs is zero. -/
theorem make_data_outputs_sum_zero (ps : List (List Nat))
    (outs : List TransactionOutput) (h : make_data_outputs ps = .ok outs) :
    (outs.map TransactionOutput.value).sum = 0 := by
  refine List.sum_eq_zero ?_
  intro x hx
  obtain ⟨o, ho, rfl⟩ := List.mem_map.mp hx
  exact (make_data_outputs_inv ps outs h).2.1 o ho

/-- Inversion for `create_transaction`: a successful build decomposes
into the decoded txid, the encoded data outputs, and either the dust
branch or the change branch. -/
theorem create_transaction_inv (p2wpkh : List Nat → Script)
    (pub_key : List Nat) (r : ℚ) (txid : String) (v : Nat) (amount : Int)
    (ps : List (List Nat)) (ptx tx : Transaction)
    (h : create_transaction p2wpkh pub_key r txid v amount ps ptx = .ok tx) :
    ∃ tb outs, bytesFromHex txid = some tb ∧ make_data_outputs ps = .ok outs ∧
      ((amount - computed_fee r ps < 546 ∧
        tx = ⟨2, 0, [⟨tb, v, [], []⟩], outs⟩) ∨
       (546 ≤ amount - computed_fee r ps ∧
        tx = ⟨2, 0, [⟨tb, v, [], []⟩],
          outs ++ [⟨amount - computed_fee r ps, p2wpkh pub_key⟩]⟩)) := by
  unfold create_transaction at h
  cases htb : bytesFromHex txid with
  | none => rw [htb] at h; cases h
  | some tb =>
    rw [htb] at h
    cases ho : make_data_outputs ps with
    | error e => rw [ho] at h; cases h
    | ok outs =>
      rw [ho] at h
      dsimp only at h
      refine ⟨tb, outs, rfl, rfl, ?_⟩
      by_cases hc : amount - computed_fee r ps < 546
      · rw [if_pos hc] at h
        cases h
        exact Or.inl ⟨hc, rfl⟩
      · rw [if_neg hc] at h
        cases h
        exact Or.inr ⟨by omega, rfl⟩

/-- Positivity of the computed fee: the floor of 1 satoshi. -/
theorem computed_fee_ge_one (r : ℚ) (ps : List (List Nat)) :
    1 ≤ computed_fee r ps := by
  unfold computed_fee
  split_ifs with h <;> omega

/-- Concrete fee of the scenario payload: `int(2 * 132) = 264`. -/
theorem computed_fee_scenario : computed_fee 2 [payload13] = 264 := by
  simp [computed_fee, estimated_vsize, pyInt, payload13]
  norm_num

/-- Concrete evaluation of the funded scenario build. -/
theorem scenario_build_eq : scenario_build = .ok scenario_tx := by
  simp [scenario_build, create_transaction, bytesFromHex, bytesFromHexList,
    hexVal, make_data_outputs, create_op_return_script, payload13,
    computed_fee, estimated_vsize, pyInt, scenario_tx, a_p2wpkh]
  norm_num

/-- Concrete evaluation of the dust scenario build. -/
theorem dust_build_eq : dust_build = .ok dust_tx := by
  simp [dust_build, create_transaction, bytesFromHex, bytesFromHexList,
    hexVal, make_data_outputs, create_op_return_script, payload13,
    computed_fee, estimated_vsize, pyInt, dust_tx, a_p2wpkh]
  norm_num

/-- Concrete evaluation of the under-funded build: 100 sats at
10 sat/vB still returns a transaction (fee 1320 > 100, change below
dust, so only the data output remains). -/
theorem lowfunds_build_eq :
    create_transaction a_p2wpkh [1] 10 "ab" 0 100 [payload13] empty_tx =
      .ok dust_tx := by
  simp [create_transaction, bytesFromHex, bytesFromHexList, hexVal,
    make_data_outputs, create_op_return_script, payload13, computed_fee,
    estimated_vsize, pyInt, dust_tx, a_p2wpkh]
  norm_num

/-! ## Claims -/

/-- Claim C1: for every byte string `data`, if `len(data) ≤ 75` the
encoded script is `0x6a`, one byte equal to the length, then the data
(total length `2 + len(data)`); for `76 ≤ len(data) ≤ 255` it is
`0x6a 0x4c <len> <data>`; for `256 ≤ len(data) ≤ 65535` it is
`0x6a 0x4d <len_lo> <len_hi> <data>` with the two length bytes holding
`len(data)` little-endian. -/
theorem C1_encode_push_ranges (data : List Nat) :
    (data.length ≤ 75 →
      create_op_return_script data = .ok ⟨0x6a :: data.length :: data⟩ ∧
      (0x6a :: data.length :: data).length = 2 + data.length) ∧
    (76 ≤ data.length → data.length ≤ 255 →
      create_op_return_script data =
        .ok ⟨0x6a :: 0x4c :: data.length :: data⟩) ∧
    (256 ≤ data.length → data.length ≤ 65535 →
      create_op_return_script data =
        .ok ⟨0x6a :: 0x4d :: data.length % 256 :: data.length / 256 :: data⟩ ∧
      data.length % 256 + 256 * (data.length / 256) = data.length) := by
  refine ⟨?_, ?_, ?_⟩
  · intro h
    refine ⟨?_, by simp; omega⟩
    unfold create_op_return_script
    rw [if_pos h]
  · intro h1 h2
    unfold create_op_return_script
    rw [if_neg (by omega), if_pos h2]
  · intro h1 h2
    have hdiv : data.length / 256 % 256 = data.length / 256 :=
      Nat.mod_eq_of_lt (by omega)
    refine ⟨?_, by omega⟩
    unfold create_op_return_script
    rw [if_neg (by omega), if_neg (by omega), if_pos h2]
    simp [toBytesLE2, hdiv]

/-- Witness for C1 at concrete payloads of lengths 3, 100 and 300. -/
theorem C1_encode_push_ranges_witness :
    ([1, 2, 3].length ≤ 75 ∧
      create_op_return_script [1, 2, 3] =
        .ok ⟨0x6a :: [1, 2, 3].length :: [1, 2, 3]⟩) ∧
    (create_op_return_script (List.replicate 100 7) =
      .ok ⟨0x6a :: 0x4c :: (List.replicate 100 7).length ::
        List.replicate 100 7⟩) ∧
    (create_op_return_script (List.replicate 300 7) =
      .ok ⟨0x6a :: 0x4d :: (List.replicate 300 7).length % 256 ::
        (List.replicate 300 7).length / 256 :: List.replicate 300 7⟩) :=
  ⟨⟨by simp, ((C1_encode_push_ranges [1, 2, 3]).1 (by simp)).1⟩,
   (C1_encode_push_ranges (List.replicate 100 7)).2.1
     (by simp only [List.length_replicate]; decide)
     (by simp only [List.length_replicate]; decide),
   ((C1_encode_push_ranges (List.replicate 300 7)).2.2
     (by simp only [List.length_replicate]; decide)
     (by simp only [List.length_replicate]; decide)).1⟩

/-- Claim C2: the encoder succeeds for every payload of length at most
65535, fails with `PayloadTooLarge` exactly beyond that, and never
truncates the payload (the data is a suffix of every produced script). -/
theorem C2_encode_total_never_truncates (data : List Nat) :
    (data.length ≤ 65535 → ∃ s, create_op_return_script data = .ok s) ∧
    (65535 < data.length →
      create_op_return_script data = .error .PayloadTooLarge) ∧
    (∀ s, create_op_return_script data = .ok s →
      ∃ pre, s.bytes = pre ++ data) := by
  refine ⟨?_, ?_, ?_⟩
  · intro h
    unfold create_op_return_script
    split_ifs with h1 h2
    · exact ⟨_, rfl⟩
    · exact ⟨_, rfl⟩
    · exact ⟨_, rfl⟩
  · intro h
    unfold create_op_return_script
    rw [if_neg (by omega), if_neg (by omega), if_neg (by omega)]
  · intro s hs
    unfold create_op_return_script at hs
    split_ifs at hs with h1 h2 h3
    · cases hs; exact ⟨[0x6a, data.length], rfl⟩
    · cases hs; exact ⟨[0x6a, 0x4c, data.length], rfl⟩
    · cases hs; exact ⟨[0x6a, 0x4d] ++ toBytesLE2 data.length, by simp⟩

/-- Witness for C2: success at one byte, `PayloadTooLarge` at 65536
bytes, and the one-byte payload as a suffix of its script. -/
theorem C2_encode_total_never_truncates_witness :
    (∃ s, create_op_return_script [5] = .ok s) ∧
    create_op_return_script (List.replicate 65536 0) =
      .error .PayloadTooLarge ∧
    (∃ pre, Script.bytes ⟨[0x6a, 1, 5]⟩ = pre ++ [5]) :=
  ⟨(C2_encode_total_never_truncates [5]).1 (by simp),
   (C2_encode_total_never_truncates (List.replicate 65536 0)).2.1
     (by simp only [List.length_replicate]; decide),
   (C2_encode_total_never_truncates [5]).2.2 ⟨[0x6a, 1, 5]⟩ rfl⟩

/-- Claim C3: the estimated virtual size is exactly
`10 + 68 + Σ(10 + len(payload_i)) + 31`; the fee is the fee rate times
that size, truncated to an integer (floor, for nonnegative rates), with
a floor of 1 so the fee is never zero or negative; one 13-byte payload
at 2 sat/vB gives vsize 132 and fee 264. -/
theorem C3_fee_model :
    (∀ (r : ℚ) (ps : List (List Nat)),
      computed_fee r ps = max 1 (pyInt (r * (estimated_vsize ps : ℚ))) ∧
      1 ≤ computed_fee r ps) ∧
    (∀ (r : ℚ) (ps : List (List Nat)), 0 ≤ r →
      computed_fee r ps = max 1 ⌊r * (estimated_vsize ps : ℚ)⌋) ∧
    (∀ ps : List (List Nat),
      estimated_vsize ps =
        10 + 68 + (ps.map (fun p => 10 + p.length)).sum + 31) ∧
    estimated_vsize [payload13] = 132 ∧
    computed_fee 2 [payload13] = 264 := by
  refine ⟨?_, ?_, fun ps => rfl, by simp [estimated_vsize, payload13], ?_⟩
  · intro r ps
    unfold computed_fee
    constructor
    · split_ifs with h <;> omega
    · split_ifs with h <;> omega
  · intro r ps hr
    have h0 : (0 : ℚ) ≤ r * (estimated_vsize ps : ℚ) :=
      mul_nonneg hr (by positivity)
    unfold computed_fee pyInt
    rw [if_pos h0]
    split_ifs with h <;> omega
  · simp [computed_fee, estimated_vsize, pyInt, payload13]
    norm_num

/-- Witness for C3 at fee rate 2 and the 13-byte scenario payload. -/
theorem C3_fee_model_witness :
    computed_fee 2 [payload13] =
      max 1 ⌊(2 : ℚ) * (estimated_vsize [payload13] : ℚ)⌋ :=
  C3_fee_model.2.1 2 [payload13] zero_le_two

/-- Concrete fee at 10 sat/vB for the scenario payload:
`int(10 * 132) = 1320`. -/
theorem computed_fee_lowfunds : computed_fee 10 [payload13] = 1320 := by
  simp [computed_fee, estimated_vsize, pyInt, payload13]
  norm_num

/-- Counterexample to claim C4 as stated: with input value 100 sats and
fee rate 10 sat/vB the computed fee (1320) exceeds the whole input, yet
`create_transaction` does not fail — it returns a transaction (the
change, being negative, merely falls below the dust limit, so only the
data output is emitted). -/
theorem C4_counterexample :
    create_transaction a_p2wpkh [1] 10 "ab" 0 100 [payload13] empty_tx =
      .ok dust_tx :=
  lowfunds_build_eq

/-- Claim C4 (amended): the builder never fails with
`InsufficientFunds`; when `input.value` is less than the computed fee,
the change is negative and hence below the dust limit, so the
transaction is still returned, carrying only the zero-value data
outputs, with the entire input absorbed as the effective fee — and no
negative-value output is ever constructed on any successful build. -/
theorem C4_no_insufficient_funds (p2wpkh : List Nat → Script)
    (pub_key : List Nat) (r : ℚ) (txid : String) (v : Nat) (amount : Int)
    (ps : List (List Nat)) (ptx tx : Transaction)
    (h : create_transaction p2wpkh pub_key r txid v amount ps ptx = .ok tx) :
    (∀ o ∈ tx.vout, 0 ≤ o.value) ∧
    (amount < computed_fee r ps →
      (∀ o ∈ tx.vout, o.value = 0) ∧ effective_fee r amount ps = amount) := by
  obtain ⟨tb, outs, htb, ho, hcase⟩ :=
    create_transaction_inv _ _ _ _ _ _ _ _ _ h
  obtain ⟨hlen, hzero, -⟩ := make_data_outputs_inv ps outs ho
  rcases hcase with ⟨hc, rfl⟩ | ⟨hc, rfl⟩
  · refine ⟨fun o hm => le_of_eq (hzero o hm).symm, fun hlt => ⟨hzero, ?_⟩⟩
    unfold effective_fee
    rw [if_pos hc]
  · refine ⟨?_, fun hlt => absurd hc (by omega)⟩
    intro o hm
    rcases List.mem_append.mp hm with hmem | hmem
    · exact le_of_eq (hzero o hmem).symm
    · rcases List.mem_singleton.mp hmem with rfl
      dsimp
      omega

/-- Witness for the amended C4 at input value 100 sats and fee rate
10 sat/vB. -/
theorem C4_no_insufficient_funds_witness :
    (∀ o ∈ dust_tx.vout, 0 ≤ o.value) ∧
    (∀ o ∈ dust_tx.vout, o.value = 0) ∧
    effective_fee 10 100 [payload13] = 100 :=
  ⟨(C4_no_insufficient_funds a_p2wpkh [1] 10 "ab" 0 100 [payload13] empty_tx
      dust_tx lowfunds_build_eq).1,
   (C4_no_insufficient_funds a_p2wpkh [1] 10 "ab" 0 100 [payload13] empty_tx
      dust_tx lowfunds_build_eq).2 (by simp [computed_fee_lowfunds])⟩

/-- Claim C5: when the computed change `input.value - fee` is below
546, the built transaction carries only the data outputs (no change
output) and the effective fee equals the whole input value; when the
change is at least 546, exactly one change output with that value and
the caller's pay-to-witness-pubkey-hash script is appended. -/
theorem C5_dust_change_policy (p2wpkh : List Nat → Script)
    (pub_key : List Nat) (r : ℚ) (txid : String) (v : Nat) (amount : Int)
    (ps : List (List Nat)) (ptx tx : Transaction)
    (h : create_transaction p2wpkh pub_key r txid v amount ps ptx = .ok tx) :
    (amount - computed_fee r ps < 546 →
      (∃ outs, make_data_outputs ps = .ok outs ∧ tx.vout = outs) ∧
      tx.vout.length = ps.length ∧ output_value_sum tx = 0 ∧
      effective_fee r amount ps = amount) ∧
    (546 ≤ amount - computed_fee r ps →
      (∃ outs, make_data_outputs ps = .ok outs ∧
        tx.vout = outs ++
          [⟨amount - computed_fee r ps, p2wpkh pub_key⟩]) ∧
      effective_fee r amount ps = computed_fee r ps) := by
  obtain ⟨tb, outs, htb, ho, hcase⟩ :=
    create_transaction_inv _ _ _ _ _ _ _ _ _ h
  obtain ⟨hlen, hzero, -⟩ := make_data_outputs_inv ps outs ho
  rcases hcase with ⟨hc, rfl⟩ | ⟨hc, rfl⟩
  · refine ⟨fun hlt => ⟨⟨outs, ho, rfl⟩, hlen, ?_, ?_⟩,
      fun hge => absurd hc (by omega)⟩
    · simpa [output_value_sum] using make_data_outputs_sum_zero ps outs ho
    · unfold effective_fee
      rw [if_pos hc]
  · refine ⟨fun hlt => absurd hc (by omega),
      fun hge => ⟨⟨outs, ho, rfl⟩, ?_⟩⟩
    unfold effective_fee
    rw [if_neg (by omega)]

/-- Witness for C5: the dust scenario (600 sats) and the funded
scenario (100000 sats). -/
theorem C5_dust_change_policy_witness :
    ((∃ outs, make_data_outputs [payload13] = .ok outs ∧
        dust_tx.vout = outs) ∧
      dust_tx.vout.length = [payload13].length ∧
      output_value_sum dust_tx = 0 ∧
      effective_fee 2 600 [payload13] = 600) ∧
    ((∃ outs, make_data_outputs [payload13] = .ok outs ∧
        scenario_tx.vout = outs ++
          [⟨(100000 : Int) - computed_fee 2 [payload13], a_p2wpkh [1]⟩]) ∧
      effective_fee 2 100000 [payload13] = computed_fee 2 [payload13]) :=
  ⟨(C5_dust_change_policy a_p2wpkh [1] 2 "ab" 0 600 [payload13] empty_tx
      dust_tx dust_build_eq).1 (by simp [computed_fee_scenario]),
   (C5_dust_change_policy a_p2wpkh [1] 2 "ab" 0 100000 [payload13] empty_tx
      scenario_tx scenario_build_eq).2 (by simp [computed_fee_scenario])⟩

/-- Claim C6: for every transaction the builder returns, the sum of
the output values plus the effective fee equals the input value
exactly — no value is created or destroyed. -/
theorem C6_value_conservation (p2wpkh : List Nat → Script)
    (pub_key : List Nat) (r : ℚ) (txid : String) (v : Nat) (amount : Int)
    (ps : List (List Nat)) (ptx tx : Transaction)
    (h : create_transaction p2wpkh pub_key r txid v amount ps ptx = .ok tx) :
    output_value_sum tx + effective_fee r amount ps = amount := by
  obtain ⟨tb, outs, htb, ho, hcase⟩ :=
    create_transaction_inv _ _ _ _ _ _ _ _ _ h
  have hsum := make_data_outputs_sum_zero ps outs ho
  rcases hcase with ⟨hc, rfl⟩ | ⟨hc, rfl⟩
  · unfold output_value_sum effective_fee
    rw [if_pos hc]
    simpa using hsum
  · unfold output_value_sum effective_fee
    rw [if_neg (by omega)]
    simp [hsum]

/-- Witness for C6 at the funded scenario. -/
theorem C6_value_conservation_witness :
    output_value_sum scenario_tx + effective_fee 2 100000 [payload13] =
      100000 :=
  C6_value_conservation a_p2wpkh [1] 2 "ab" 0 100000 [payload13] empty_tx
    scenario_tx scenario_build_eq

/-- Claim C7: every built transaction has version 2, locktime 0,
exactly one input referencing the given txid and vout with empty
scriptSig and witness, the zero-value data outputs in payload order
(output `i` carries the encoding of payload `i`), followed by at most
one change output in last position. -/
theorem C7_transaction_structure (p2wpkh : List Nat → Script)
    (pub_key : List Nat) (r : ℚ) (txid : String) (v : Nat) (amount : Int)
    (ps : List (List Nat)) (ptx tx : Transaction)
    (h : create_transaction p2wpkh pub_key r txid v amount ps ptx = .ok tx) :
    tx.version = 2 ∧ tx.locktime = 0 ∧
    (∃ tb, bytesFromHex txid = some tb ∧ tx.vin = [⟨tb, v, [], []⟩]) ∧
    (∃ outs, make_data_outputs ps = .ok outs ∧ outs.length = ps.length ∧
      (∀ o ∈ outs, o.value = 0) ∧
      (∀ i, i < ps.length →
        ∃ s, create_op_return_script (ps.getD i []) = .ok s ∧
          outs.getD i ⟨0, ⟨[]⟩⟩ = ⟨0, s⟩) ∧
      (tx.vout = outs ∨
        tx.vout = outs ++
          [⟨amount - computed_fee r ps, p2wpkh pub_key⟩])) := by
  obtain ⟨tb, outs, htb, ho, hcase⟩ :=
    create_transaction_inv _ _ _ _ _ _ _ _ _ h
  obtain ⟨hlen, hzero, hget⟩ := make_data_outputs_inv ps outs ho
  rcases hcase with ⟨hc, rfl⟩ | ⟨hc, rfl⟩
  · exact ⟨rfl, rfl, ⟨tb, htb, rfl⟩, outs, ho, hlen, hzero, hget, Or.inl rfl⟩
  · exact ⟨rfl, rfl, ⟨tb, htb, rfl⟩, outs, ho, hlen, hzero, hget, Or.inr rfl⟩

/-- Witness for C7 at the funded scenario. -/
theorem C7_transaction_structure_witness :
    scenario_tx.version = 2 ∧ scenario_tx.locktime = 0 ∧
    (∃ tb, bytesFromHex "ab" = some tb ∧
      scenario_tx.vin = [⟨tb, 0, [], []⟩]) ∧
    (∃ outs, make_data_outputs [payload13] = .ok outs ∧
      outs.length = [payload13].length ∧ (∀ o ∈ outs, o.value = 0) ∧
      (∀ i, i < [payload13].length →
        ∃ s, create_op_return_script ([payload13].getD i []) = .ok s ∧
          outs.getD i ⟨0, ⟨[]⟩⟩ = ⟨0, s⟩) ∧
      (scenario_tx.vout = outs ∨
        scenario_tx.vout = outs ++
          [⟨(100000 : Int) - computed_fee 2 [payload13], a_p2wpkh [1]⟩])) :=
  C7_transaction_structure a_p2wpkh [1] 2 "ab" 0 100000 [payload13] empty_tx
    scenario_tx scenario_build_eq

/-- Claim C8: `sign_transaction` either returns exactly the transaction
that PSBT finalization produced (a new, fully finalized object) or
fails with `FinalizationFailed`; it is all-or-nothing — whenever
finalization cannot produce a witness (`none`), no transaction object
is returned. -/
theorem C8_sign_all_or_nothing
    (sign_with : PSBT → PrivKey → PSBT)
    (finalize_psbt : PSBT → Option Transaction) (k : PrivKey)
    (tx : Transaction) (txid : String) (v : Nat)
    (prev : TransactionOutput) :
    (∀ t, sign_transaction sign_with finalize_psbt k tx txid v prev = .ok t ↔
      finalize_psbt (sign_with (psbt_for_signing tx prev) k) = some t) ∧
    (sign_transaction sign_with finalize_psbt k tx txid v prev =
        .error .FinalizationFailed ↔
      finalize_psbt (sign_with (psbt_for_signing tx prev) k) = none) := by
  unfold sign_transaction
  cases hf : finalize_psbt (sign_with (psbt_for_signing tx prev) k) <;>
    simp [hf]

/-- Witness for C8 with a concrete signer and finalizer. -/
theorem C8_sign_all_or_nothing_witness :
    sign_transaction (fun p _ => p) (fun p => some p.tx) [0] dust_tx "ab" 0
      ⟨600, a_p2wpkh [1]⟩ = .ok dust_tx :=
  ((C8_sign_all_or_nothing (fun p _ => p) (fun p => some p.tx) [0] dust_tx
      "ab" 0 ⟨600, a_p2wpkh [1]⟩).1 dust_tx).mpr rfl

/-- Counterexample to claim C9 as stated: the funded scenario declares
an input value of 100000 sats to the builder, yet signing the built
transaction against a previous output declaring value 50000 does not
fail with `ValueMismatch` — the call succeeds, silently trusting the
previous output handed in. -/
theorem C9_counterexample :
    scenario_build = .ok scenario_tx ∧
    sign_transaction (fun p _ => p) (fun p => some p.tx) [0] scenario_tx
      "ab" 0 ⟨50000, a_p2wpkh [1]⟩ = .ok scenario_tx :=
  ⟨scenario_build_eq, rfl⟩

/-- Claim C9 (amended): `sign_transaction` performs no comparison of
the previous output's declared value against the UnspentOutput's
declared value and never fails with `ValueMismatch`; every call either
finalizes (returning the finalized transaction) or fails with
`FinalizationFailed`, silently trusting the previous output it was
given. -/
theorem C9_never_value_mismatch
    (sign_with : PSBT → PrivKey → PSBT)
    (finalize_psbt : PSBT → Option Transaction) (k : PrivKey)
    (tx : Transaction) (txid : String) (v : Nat)
    (prev : TransactionOutput) :
    sign_transaction sign_with finalize_psbt k tx txid v prev =
        .error .FinalizationFailed ∨
      ∃ t, sign_transaction sign_with finalize_psbt k tx txid v prev =
        .ok t := by
  unfold sign_transaction
  cases finalize_psbt (sign_with (psbt_for_signing tx prev) k) <;> simp

/-- Claim C10: `sign_transaction` never reads its `utxo_txid` and
`utxo_vout` arguments — two calls agreeing on everything else return
identical results for arbitrary values of those two arguments. -/
theorem C10_sign_ignores_outpoint_args
    (sign_with : PSBT → PrivKey → PSBT)
    (finalize_psbt : PSBT → Option Transaction) (k : PrivKey)
    (tx : Transaction) (prev : TransactionOutput)
    (txid1 txid2 : String) (v1 v2 : Nat) :
    sign_transaction sign_with finalize_psbt k tx txid1 v1 prev =
      sign_transaction sign_with finalize_psbt k tx txid2 v2 prev := rfl

end BitcoinOps
